import Mathlib

/-
Verification of the asynchronous orchestration core of a WhatsApp
conversational-bot and mass-messaging platform, against its source:

  - message-template interpolation (src/services/whatsapp.service.js,
    interpolateVariables)
  - the broadcast dispatcher (src/services/broadcast.service.js,
    BroadcastService startCampaign / processCampaign / getTargetContacts)
  - the flow interpreter (src/services/flowEngine.service.js, FlowEngine)
  - the dead-letter retry manager (src/services/dlq.service.js, DLQService)
    with the SQL backoff function calculate_next_retry.

JavaScript values that flow through these functions are modelled by the
inductive JsVal below; machine time is a Nat count of milliseconds; the
database and outbound WhatsApp channel are modelled as explicit state and
effect traces.  Each definition mirrors one source function and keeps its
name.
-/

set_option maxRecDepth 4000

/-- A JavaScript value as it appears in the flow context, contact custom
fields and node data.  Numbers are modelled as rationals (enough for the
integer and decimal literals these services handle); objects are modelled
shallowly as string-valued field lists (the only objects stored are small
error records and HTTP payloads whose contents no service inspects). -/
inductive JsVal where
  | vNull
  | vUndefined
  | vBool (b : Bool)
  | vNum (q : Rat)
  | vStr (s : String)
  | vObj (fields : List (String × String))
deriving DecidableEq

/-- JavaScript truthiness of a value (used by `value || ''` and by the
`is_empty` condition operator). -/
def JsVal.truthy : JsVal → Bool
  | .vNull => false
  | .vUndefined => false
  | .vBool b => b
  | .vNum q => q != 0
  | .vStr s => s != ""
  | .vObj _ => true

/-- JavaScript string coercion of a value.  Fractional numbers are printed
in Lean's rational notation; the services under verification only ever
coerce strings and integers. -/
def JsVal.toStr : JsVal → String
  | .vNull => "null"
  | .vUndefined => "undefined"
  | .vBool b => if b then "true" else "false"
  | .vNum q => if q.den == 1 then toString q.num else toString q
  | .vStr s => s
  | .vObj _ => "[object Object]"

/-- Does the list start with the given pattern?  Executable analogue of
JavaScript's position-0 regex match, used by the substring search below. -/
def listStartsWith : List Char → List Char → Bool
  | _, [] => true
  | [], _ :: _ => false
  | c :: cs, p :: ps => c == p && listStartsWith cs ps

/-- Contiguous substring search on character lists, mirroring JavaScript's
String.prototype.includes. -/
def listContainsSub (pat : List Char) : List Char → Bool
  | [] => listStartsWith [] pat
  | c :: t => listStartsWith (c :: t) pat || listContainsSub pat t

/-- One left-to-right pass replacing every non-overlapping occurrence of
`pat` by `rep`, as JavaScript's String.prototype.replace with a global
regex does.  The fuel argument bounds recursion by the subject length;
each step consumes at least one character when `pat` is non-empty. -/
def replaceAllFuel (pat rep : List Char) : Nat → List Char → List Char
  | 0, s => s
  | _ + 1, [] => []
  | n + 1, c :: t =>
      if listStartsWith (c :: t) pat then
        rep ++ replaceAllFuel pat rep n (List.drop pat.length (c :: t))
      else
        c :: replaceAllFuel pat rep n t

/-- Replace every occurrence of `pat` in `s` by `rep` (no-op on an empty
pattern, which the interpolation below never produces: its patterns always
contain the surrounding braces). -/
def replaceAllL (pat rep s : List Char) : List Char :=
  if pat.isEmpty then s else replaceAllFuel pat rep s.length s

/-- String wrapper around replaceAllL. -/
def replaceAllStr (s pat rep : String) : String :=
  ⟨replaceAllL pat.data rep.data s.data⟩

/-- The replacement text used for one variable: `value || ''` coerced to a
string, i.e. the value's string form when truthy and the empty string when
falsy.  Mirrors the `value || ''` argument of the source's replace call. -/
def substVal (v : JsVal) : String :=
  if v.truthy then v.toStr else ""

/-- The braces-wrapped token for a variable key, the literal text matched
by the source's `new RegExp('\x7b\x7b' + key + '\x7d\x7d', 'g')` for keys
without regex metacharacters. -/
def bracedKey (key : String) : String :=
  "\x7b\x7b" ++ key ++ "\x7d\x7d"

/-- Model of interpolateVariables (whatsapp.service.js): for each entry of
the variables map in order, globally replace the token of that key by the
value (falsy values become the empty string).  Keys absent from the map
are never touched. -/
def interpolateVariables (template : String) (vars : List (String × JsVal)) : String :=
  vars.foldl (fun result kv => replaceAllStr result (bracedKey kv.1) (substVal kv.2)) template

/-
Broadcast dispatcher (broadcast.service.js).  The contacts table, the
broadcast_messages table and the broadcast_campaigns row are explicit
state; supabase query chains become list filters.
-/

/-- A row of the contacts table, restricted to the columns the broadcast
service reads. -/
structure Contact where
  id : Nat
  workspace_id : Nat
  phone : String
  name : Option String
  email : Option String
  opted_in : Bool
  whatsapp_verified : Bool
  tags : List String
  custom_fields : List (String × JsVal)
deriving DecidableEq

/-- The target_filters JSON of a campaign. -/
structure TargetFilters where
  contact_ids : Option (List Nat) := none
  tags : Option (List String) := none
  custom_fields : Option (List (String × JsVal)) := none
deriving DecidableEq

/-- A row of the broadcast_campaigns table, restricted to the columns the
dispatcher reads. -/
structure Campaign where
  id : Nat
  workspace_id : Nat
  message_content : String
  target_type : String
  target_filters : Option TargetFilters := none
  rate_limit : Option Nat := none
  scheduled_at : Option Nat := none
deriving DecidableEq

/-- A row of the broadcast_messages table as created by startCampaign. -/
structure CampaignMessage where
  campaign_id : Nat
  contact_id : Nat
  contact_phone : String
  message_content : String
  status : String
deriving DecidableEq

/-- Model of BroadcastService.getTargetContacts: one supabase query over
the contacts table.  The base query always restricts to the campaign's
workspace and to opted_in = true and whatsapp_verified = true; a
`specific` target adds an id-list membership clause (only when the filter
object carries a truthy contact_ids, as in the source's optional chain); a
`filtered` target adds a tag-overlap clause when a non-empty tags filter
is present and a containment clause per custom field. -/
def getTargetContacts (db : List Contact) (campaign : Campaign) : List Contact :=
  db.filter (fun c =>
    c.workspace_id == campaign.workspace_id &&
    c.opted_in &&
    c.whatsapp_verified &&
    (if campaign.target_type == "specific" then
        match campaign.target_filters with
        | some f =>
            match f.contact_ids with
            | some ids => ids.contains c.id
            | none => true
        | none => true
      else true) &&
    (if campaign.target_type == "filtered" then
        (match (campaign.target_filters.bind TargetFilters.tags) with
         | some ts => if ts.length > 0 then ts.any (fun t => c.tags.contains t) else true
         | none => true) &&
        (match (campaign.target_filters.bind TargetFilters.custom_fields) with
         | some cfs => cfs.all (fun kv => c.custom_fields.contains kv)
         | none => true)
      else true))

/-- The variables object built by interpolateContactVariables: name, phone
and email (empty string when null) spread-merged with the contact's custom
fields.  A custom field sharing a base key overrides the base value in
place; remaining custom fields follow in order, as JavaScript object
spread does. -/
def contactVariables (c : Contact) : List (String × JsVal) :=
  let base : List (String × JsVal) :=
    [(("name"), JsVal.vStr (c.name.getD (""))),
     (("phone"), JsVal.vStr c.phone),
     (("email"), JsVal.vStr (c.email.getD ("")))]
  let overridden := base.map (fun kv =>
    match c.custom_fields.lookup kv.1 with
    | some v => (kv.1, v)
    | none => kv)
  overridden ++ c.custom_fields.filter (fun kv =>
    !(kv.1 == "name" || kv.1 == "phone" || kv.1 == "email"))

/-- Model of BroadcastService.interpolateContactVariables. -/
def interpolateContactVariables (template : String) (c : Contact) : String :=
  interpolateVariables template (contactVariables c)

/-- Observable result of one startCampaign call: the successive status
values written to the campaign row, the timestamps written, the
broadcast_messages rows inserted, and whether the asynchronous
processCampaign loop was kicked off. -/
structure StartResult where
  statusWrites : List String
  started_at : Option Nat
  completed_at : Option Nat
  total_recipients : Option Nat
  messagesCreated : List CampaignMessage
  processInvoked : Bool
deriving DecidableEq

/-- Model of BroadcastService.startCampaign for a campaign that exists in
the database, with `now` the current time.  A future scheduled_at returns
before any write; otherwise the status is set to processing, the target
contacts are resolved, and an empty recipient list throws, which the
surrounding catch turns into a terminal failed status with completed_at;
a non-empty list inserts one pending CampaignMessage per contact with the
template interpolated against that contact and fires processCampaign. -/
def startCampaign (now : Nat) (db : List Contact) (campaign : Campaign) : StartResult :=
  match campaign.scheduled_at with
  | some t =>
      if t > now then
        ⟨[], none, none, none, [], false⟩
      else startCampaignBody now db campaign
  | none => startCampaignBody now db campaign
where
  /-- The body after the scheduling check. -/
  startCampaignBody (now : Nat) (db : List Contact) (campaign : Campaign) : StartResult :=
    if (getTargetContacts db campaign).length == 0 then
      ⟨[("processing"), ("failed")], some now, some now, none, [], false⟩
    else
      ⟨[("processing")], some now, none, some (getTargetContacts db campaign).length,
        (getTargetContacts db campaign).map (fun contact =>
          CampaignMessage.mk campaign.id contact.id contact.phone
            (interpolateContactVariables campaign.message_content contact) ("pending")),
        true⟩

/-
The processCampaign send loop.  Pending broadcast_messages rows are a
queue in table order; each outer iteration re-reads the campaign status
(an oracle indexed by iteration, standing for concurrent pause/cancel
writes), fetches a batch of up to ten pending messages and processes them.
The WhatsApp send (wrapped by WhatsAppService.withRetry in the source) is
an oracle from message id to overall success.
-/

/-- Broadcast config defaults (config.js): BROADCAST_DEFAULT_RATE_LIMIT
and BROADCAST_FAILURE_THRESHOLD fall back to 10 and 30. -/
def defaultRateLimit : Nat := 10

/-- Default campaign failure threshold in percent. -/
def failureThreshold : Nat := 30

/-- A pending broadcast_messages row as the loop reads it. -/
structure BMsg where
  id : Nat
  contact_phone : String
  message_content : String
deriving DecidableEq

/-- Observable events of one processCampaign run: a send attempt for a
message id, and a rate-limiting sleep. -/
inductive PCEvent where
  | attempt (id : Nat)
  | sleepEv (ms : Rat)
deriving DecidableEq

/-- How one run of the loop ended. -/
inductive PCOutcome where
  | pausedStop
  | cancelledStop
  | completed
  | thresholdAborted
  | fuelOut
deriving DecidableEq

/-- Result of one processCampaign run: the outcome, the campaign status it
leaves behind, the final counters, the rows still pending, and the event
trace. -/
structure PCResult where
  outcome : PCOutcome
  finalStatus : String
  sent_count : Nat
  failed_count : Nat
  remainingPending : List BMsg
  trace : List PCEvent
deriving DecidableEq

/-- Result of processing one fetched batch. -/
structure BatchResult where
  sent : Nat
  failed : Nat
  events : List PCEvent
  remaining : List BMsg
  aborted : Bool
deriving DecidableEq

/-- The failure-rate expression of the source:
`(failedCount / (sentCount + failedCount)) * 100`, over rationals.  (With
zero messages processed the source divides by zero giving NaN, our model
gives 0; both fail the strict threshold comparison.) -/
def failureRate (sent failed : Nat) : Rat :=
  ((failed : Rat) / ((sent : Rat) + (failed : Rat))) * 100

/-- The abort guard of the source: the failure rate strictly exceeds the
threshold and strictly more than ten messages have been processed.  The
rate comparison is written in cross-multiplied integer form so that it is
kernel-computable; thresholdHit_spec proves it equal to the comparison on
the rational failureRate expression, including the zero-denominator case
(where the source compares NaN, which is false, and the integer form is
0 > 0, also false). -/
def thresholdHit (threshold sent failed : Nat) : Bool :=
  decide (failed * 100 > threshold * (sent + failed)) && decide (sent + failed > 10)

/-- The integer abort guard coincides with the comparison of the source's
rational failure-rate expression against the threshold. -/
theorem thresholdHit_spec (threshold sent failed : Nat) :
    thresholdHit threshold sent failed =
      (decide (failureRate sent failed > (threshold : Rat)) && decide (sent + failed > 10)) := by
  unfold thresholdHit failureRate
  rcases Nat.eq_zero_or_pos (sent + failed) with h | h
  · rcases Nat.add_eq_zero.mp h with ⟨hs, hf⟩
    subst hs; subst hf
    simp
  · have hpos : (0 : Rat) < (sent : Rat) + (failed : Rat) := by
      have h2 : (0 : Rat) < ((sent + failed : Nat) : Rat) := by exact_mod_cast h
      push_cast at h2
      linarith
    have hiff : ((threshold : Rat) < (failed : Rat) / ((sent : Rat) + (failed : Rat)) * 100) ↔
        ((threshold : Nat) * (sent + failed) < failed * 100) := by
      rw [div_mul_eq_mul_div, lt_div_iff₀ hpos]
      constructor
      · intro hlt
        have : ((threshold * (sent + failed) : Nat) : Rat) < ((failed * 100 : Nat) : Rat) := by
          push_cast
          linarith
        exact_mod_cast this
      · intro hlt
        have : ((threshold * (sent + failed) : Nat) : Rat) < ((failed * 100 : Nat) : Rat) := by
          exact_mod_cast hlt
        push_cast at this
        linarith
    rcases Nat.lt_or_ge (threshold * (sent + failed)) (failed * 100) with hlt | hge
    · simp only [gt_iff_lt]
      rw [decide_eq_true hlt, decide_eq_true (hiff.mpr hlt)]
    · have h1 : ¬ (threshold * (sent + failed) < failed * 100) := Nat.not_lt.mpr hge
      simp only [gt_iff_lt]
      rw [decide_eq_false h1, decide_eq_false (fun hc => h1 (hiff.mp hc))]

/-- The inner for-loop of processCampaign over one fetched batch.  A
successful send marks the row sent, bumps sentCount and sleeps delayMs; a
failed send marks the row failed and bumps failedCount with no sleep.
After each message the campaign counters are written back and the abort
guard is evaluated; hitting it throws, leaving the rest of the batch
pending. -/
def processBatch (sendOk : Nat → Bool) (delayMs : Rat) (threshold : Nat) :
    List BMsg → Nat → Nat → BatchResult
  | [], sent, failed => ⟨sent, failed, [], [], false⟩
  | m :: rest, sent, failed =>
      let ok := sendOk m.id
      let sent' := if ok then sent + 1 else sent
      let failed' := if ok then failed else failed + 1
      let evts := if ok then [PCEvent.attempt m.id, PCEvent.sleepEv delayMs]
                  else [PCEvent.attempt m.id]
      if thresholdHit threshold sent' failed' then
        ⟨sent', failed', evts, rest, true⟩
      else
        let r := processBatch sendOk delayMs threshold rest sent' failed'
        ⟨r.sent, r.failed, evts ++ r.events, r.remaining, r.aborted⟩

/-- The outer while-loop of processCampaign.  Fuel bounds the recursion;
one unit more than the pending-queue length always suffices because every
non-empty batch removes at least one row from the queue. -/
def processLoop (statusReads : Nat → String) (sendOk : Nat → Bool)
    (delayMs : Rat) (threshold : Nat) :
    Nat → Nat → List BMsg → Nat → Nat → PCResult
  | 0, _, pending, sent, failed =>
      ⟨PCOutcome.fuelOut, ("processing"), sent, failed, pending, []⟩
  | fuel + 1, i, pending, sent, failed =>
      let st := statusReads i
      if st == "paused" then
        ⟨PCOutcome.pausedStop, st, sent, failed, pending, []⟩
      else if st == "cancelled" then
        ⟨PCOutcome.cancelledStop, st, sent, failed, pending, []⟩
      else
        let batch := pending.take 10
        if batch.isEmpty then
          ⟨PCOutcome.completed, ("completed"), sent, failed, pending, []⟩
        else
          let r := processBatch sendOk delayMs threshold batch sent failed
          if r.aborted then
            ⟨PCOutcome.thresholdAborted, ("failed"), r.sent, r.failed,
              r.remaining ++ pending.drop 10, r.events⟩
          else
            let res := processLoop statusReads sendOk delayMs threshold
              fuel (i + 1) (pending.drop 10) r.sent r.failed
            ⟨res.outcome, res.finalStatus, res.sent_count, res.failed_count,
              res.remainingPending, r.events ++ res.trace⟩

/-- The rate limit actually used: `campaign.rate_limit ||
config.broadcast.defaultRateLimit` (a zero or missing rate limit is falsy
and falls back to the default). -/
def effectiveRateLimit (campaign : Campaign) : Nat :=
  match campaign.rate_limit with
  | some r => if r != 0 then r else defaultRateLimit
  | none => defaultRateLimit

/-- Model of BroadcastService.processCampaign on a campaign whose
workspace has WhatsApp configured: counters start at zero, the delay is
1000 ms over the rate limit, and the loop drains the given pending
queue. -/
def processCampaign (statusReads : Nat → String) (sendOk : Nat → Bool)
    (campaign : Campaign) (pending : List BMsg) : PCResult :=
  let delayMs : Rat := 1000 / (effectiveRateLimit campaign : Rat)
  processLoop statusReads sendOk delayMs failureThreshold
    (pending.length + 1) 0 pending 0 0

/-- Number of sleep events in a trace. -/
def countSleeps (trace : List PCEvent) : Nat :=
  (trace.filter (fun e => match e with | PCEvent.sleepEv _ => true | _ => false)).length

/-- Number of send attempts in a trace. -/
def countAttempts (trace : List PCEvent) : Nat :=
  (trace.filter (fun e => match e with | PCEvent.attempt _ => true | _ => false)).length

/-
Flow interpreter (flowEngine.service.js).  The flow graph, conversation
context and inbound message are explicit data; outbound sends, message
logging and context persistence are an effect trace; time and the HTTP
collaborator live in an environment record.
-/

/-- ASCII digit test. -/
def isDigitCh (c : Char) : Bool := (('0') ≤ c) && (c ≤ ('9'))

/-- Whitespace as JavaScript regex \s and Number() trimming treat it
(ASCII subset; the services never see exotic Unicode spaces). -/
def isSpaceCh (c : Char) : Bool :=
  c == (' ') || c == ('\t') || c == ('\n') || c == ('\r') || c == ('\x0b') || c == ('\x0c')

/-- Numeric value of a digit list in the given base. -/
def digitsVal (base : Nat) (ds : List Char) : Nat :=
  ds.foldl (fun a c =>
    a * base +
      (if isDigitCh c then c.toNat - ('0').toNat
       else if (('a') ≤ c) && (c ≤ ('f')) then c.toNat - ('a').toNat + 10
       else if (('A') ≤ c) && (c ≤ ('F')) then c.toNat - ('A').toNat + 10
       else 0)) 0

/-- Split a character list into its leading decimal digits and the rest. -/
def splitDigits : List Char → List Char × List Char
  | [] => ([], [])
  | c :: t =>
      if isDigitCh c then
        let (d, r) := splitDigits t
        (c :: d, r)
      else ([], c :: t)

/-- A JavaScript number as Number() can produce it: NaN, signed infinity
or a finite value (modelled as an exact rational). -/
inductive JsNum where
  | nan
  | posInf
  | negInf
  | fin (q : Rat)
deriving DecidableEq

/-- JavaScript strict less-than on numbers: any comparison involving NaN
is false. -/
def jsNumLtB : JsNum → JsNum → Bool
  | JsNum.nan, _ => false
  | _, JsNum.nan => false
  | JsNum.negInf, JsNum.negInf => false
  | JsNum.negInf, _ => true
  | _, JsNum.negInf => false
  | JsNum.posInf, _ => false
  | JsNum.fin _, JsNum.posInf => true
  | JsNum.fin a, JsNum.fin b => decide (a < b)

/-- Parse an unsigned decimal mantissa: digits, optionally a dot and more
digits, in JavaScript's numeric-string grammar (123, 123., .5, 1.5). -/
def parseMantissa (cs : List Char) : Option (Rat × List Char) :=
  let (ip, r1) := splitDigits cs
  match r1 with
  | '.' :: r2 =>
      let (fp, r3) := splitDigits r2
      if ip.isEmpty && fp.isEmpty then none
      else some (((digitsVal 10 ip : Nat) : Rat) +
        ((digitsVal 10 fp : Nat) : Rat) / ((10 : Rat) ^ fp.length), r3)
  | _ => if ip.isEmpty then none else some (((digitsVal 10 ip : Nat) : Rat), r1)

/-- Parse a signed decimal numeric string with optional exponent; any
leftover characters make the whole string NaN, as Number() requires the
entire (trimmed) string to match. -/
def parseSignedDec (cs : List Char) : JsNum :=
  let sb : Bool × List Char :=
    match cs with
    | '+' :: t => (false, t)
    | '-' :: t => (true, t)
    | _ => (false, cs)
  match parseMantissa sb.2 with
  | none => JsNum.nan
  | some (m, rest) =>
      match rest with
      | [] => JsNum.fin (if sb.1 then -m else m)
      | e :: t =>
          if e == ('e') || e == ('E') then
            let eb : Bool × List Char :=
              match t with
              | '+' :: t2 => (false, t2)
              | '-' :: t2 => (true, t2)
              | _ => (false, t)
            let (ed, er) := splitDigits eb.2
            if ed.isEmpty || !er.isEmpty then JsNum.nan
            else
              let factor : Rat := (10 : Rat) ^ (digitsVal 10 ed)
              let mag := if eb.1 then m / factor else m * factor
              JsNum.fin (if sb.1 then -mag else mag)
          else JsNum.nan

/-- Is the character a digit of the given radix literal (hex, octal or
binary)? -/
def isRadixDigit (base : Nat) (c : Char) : Bool :=
  if base == 16 then isDigitCh c || ((('a') ≤ c) && (c ≤ ('f'))) || ((('A') ≤ c) && (c ≤ ('F')))
  else if base == 8 then (('0') ≤ c) && (c ≤ ('7'))
  else c == ('0') || c == ('1')

/-- Model of JavaScript Number(string): trim whitespace; empty string is
0; Infinity forms; unsigned radix literals 0x/0o/0b; otherwise the signed
decimal grammar; anything else is NaN. -/
def strToNum (s : String) : JsNum :=
  let cs := ((s.data.dropWhile isSpaceCh).reverse.dropWhile isSpaceCh).reverse
  match cs with
  | [] => JsNum.fin 0
  | _ =>
      if cs == ("Infinity").data || cs == ("+Infinity").data then JsNum.posInf
      else if cs == ("-Infinity").data then JsNum.negInf
      else
        match cs with
        | '0' :: x :: rest =>
            let base : Nat :=
              if x == ('x') || x == ('X') then 16
              else if x == ('o') || x == ('O') then 8
              else if x == ('b') || x == ('B') then 2
              else 0
            if base == 0 then parseSignedDec cs
            else if !rest.isEmpty && rest.all (isRadixDigit base) then
              JsNum.fin ((digitsVal base rest : Nat) : Rat)
            else JsNum.nan
        | _ => parseSignedDec cs

/-- JavaScript number coercion of a context value. -/
def JsVal.toNumber : JsVal → JsNum
  | .vNull => JsNum.fin 0
  | .vUndefined => JsNum.nan
  | .vBool b => JsNum.fin (if b then 1 else 0)
  | .vNum q => JsNum.fin q
  | .vStr s => strToNum s
  | .vObj _ => JsNum.nan

/-- The number validator of validateResponse: `!isNaN(Number(response))`. -/
def jsNumberParses (s : String) : Bool :=
  match strToNum s with
  | JsNum.nan => false
  | _ => true

/-- Split at the first occurrence of a character, dropping it. -/
def splitFirst (ch : Char) : List Char → Option (List Char × List Char)
  | [] => none
  | c :: t =>
      if c == ch then some ([], t)
      else (splitFirst ch t).map (fun p => (c :: p.1, p.2))

/-- The email validator regex of validateResponse,
`^[^\s@]+@[^\s@]+\.[^\s@]+$`: no whitespace, exactly one at-sign with
text before it, and after it a dot with at least one character on each
side. -/
def emailValid (s : String) : Bool :=
  let cs := s.data
  cs.all (fun c => !isSpaceCh c) &&
  ((cs.filter (fun c => c == ('@'))).length == 1) &&
  (match splitFirst ('@') cs with
   | some (before, after) =>
       !before.isEmpty && !after.isEmpty &&
       listContainsSub [('.')] ((after.drop 1).dropLast)
   | none => false)

/-- The phone validator regex of validateResponse, `^\+[1-9]\d{1,14}$`
(E.164): a plus, one non-zero digit, then one to fourteen digits. -/
def phoneValid (s : String) : Bool :=
  match s.data with
  | '+' :: c :: rest =>
      ((('1') ≤ c) && (c ≤ ('9'))) && rest.all isDigitCh &&
      decide (1 ≤ rest.length) && decide (rest.length ≤ 14)
  | _ => false

/-- The validation object of an ask_question node; the source field is
named type. -/
structure Validation where
  vtype : String
deriving DecidableEq

/-- The branches object of a condition node; the source fields are named
true and false. -/
structure Branches where
  btrue : Option String := none
  bfalse : Option String := none
deriving DecidableEq

/-- The data object of a flow node, as the union of the fields each node
type destructures.  String fields the source reads with a truthiness or
presence check are Options; message and question default to the empty
string (well-formed flows always set them on the node types that read
them); the source field named type (the send_message content type) is
dataType here and keeps its source default of text. -/
structure NodeData where
  message : String := ""
  dataType : String := "text"
  media_url : Option String := none
  buttons : Option (List String) := none
  question : String := ""
  variable_name : Option String := none
  validation : Option Validation := none
  variableRef : Option String := none
  operator : Option String := none
  value : Option String := none
  branches : Branches := {}
  duration : Nat := 0
  url : Option String := none
  save_response_to : Option String := none
  trigger_type : Option String := none
  keywords : Option (List String) := none
deriving DecidableEq

/-- A flow node; the source field for ntype is named type. -/
structure Node where
  id : String
  ntype : String
  data : NodeData
deriving DecidableEq

/-- A flow edge. -/
structure Edge where
  source : String
  target : String
deriving DecidableEq

/-- The flow_json of a bot. -/
structure FlowGraph where
  nodes : List Node
  edges : List Edge
deriving DecidableEq

/-- A conversation context as the engine mutates it. -/
structure Context where
  current_node_id : Option String
  waiting_for : Option String
  vars : List (String × JsVal)
  flow_history : List String
deriving DecidableEq

/-- An inbound message event. -/
structure Inbound where
  text : Option String
deriving DecidableEq

/-- Side effects the engine issues, in order. -/
inductive Effect where
  | sendText (phone text : String)
  | sendButtons (phone text : String) (buttons : List String)
  | sendMedia (phone mtype : String) (media_url : Option String) (caption : String)
  | logMessage (direction content mtype : String)
  | sleepEff (ms : Nat)
  | saveContext (ctx : Context)
  | setConversationHuman
deriving DecidableEq

/-- The engine's environment: the clock (milliseconds) read by the delay
node, and the HTTP collaborator used by http_request (url to response
data or error message).  A run is modelled as instantaneous: now is the
clock value when the run starts and while it executes. -/
structure Env where
  now : Nat
  http : String → Except String (List (String × String))

/-- JavaScript property assignment on the variables object: overwrite the
key in place when present (the engine never stores duplicate keys) or
append a new entry. -/
def setVar : List (String × JsVal) → String → JsVal → List (String × JsVal)
  | [], k, v => [(k, v)]
  | kv :: t, k, v => if kv.1 == k then (k, v) :: t else kv :: setVar t k v

/-- JavaScript property read on the variables object: undefined when the
key is missing. -/
def getVar (vars : List (String × JsVal)) (k : String) : JsVal :=
  match vars.lookup k with
  | some v => v
  | none => JsVal.vUndefined

/-- ISO-8601 rendering of a millisecond timestamp, abstracted to an
injective, order-reflecting encoding (the services only store and compare
these strings against each other). -/
def isoString (t : Nat) : String := toString t

/-- Model of FlowEngine.executeSendMessage: interpolate the template,
send as text, buttons or media, log the outgoing message, continue. -/
def executeSendMessage (phone : String) (ctx : Context) (node : Node) :
    Bool × Context × List Effect :=
  let interpolatedMessage := interpolateVariables node.data.message ctx.vars
  let sendEff :=
    if node.data.dataType == "text" && node.data.buttons == none then
      Effect.sendText phone interpolatedMessage
    else
      match node.data.buttons with
      | some bs => Effect.sendButtons phone interpolatedMessage bs
      | none => Effect.sendMedia phone node.data.dataType node.data.media_url interpolatedMessage
  (true, ctx, [sendEff, Effect.logMessage ("outgoing") interpolatedMessage node.data.dataType])

/-- Model of FlowEngine.executeAskQuestion: send the interpolated prompt,
log it, mark the context as waiting on this node, persist, and stop. -/
def executeAskQuestion (phone : String) (ctx : Context) (node : Node) :
    Bool × Context × List Effect :=
  let interpolatedQuestion := interpolateVariables node.data.question ctx.vars
  let ctx' := { ctx with waiting_for := some node.id }
  (false, ctx',
    [Effect.sendText phone interpolatedQuestion,
     Effect.logMessage ("outgoing") interpolatedQuestion ("text"),
     Effect.saveContext ctx'])

/-- Loose equality `variableValue == value` between a context value and a
node-data string, on the JavaScript == algorithm restricted to the value
shapes the engine stores. -/
def jsLooseEqStr (v : JsVal) (s : String) : Bool :=
  match v with
  | JsVal.vStr a => a == s
  | JsVal.vNum q =>
      match strToNum s with
      | JsNum.fin q2 => q == q2
      | _ => false
  | JsVal.vBool b =>
      match strToNum s with
      | JsNum.fin q2 => (if b then (1 : Rat) else 0) == q2
      | _ => false
  | JsVal.vNull => false
  | JsVal.vUndefined => false
  | JsVal.vObj _ => s == "[object Object]"

/-- Model of FlowEngine.executeCondition: evaluate the operator against
the named variable, write the selected branch target into
current_node_id, continue.  (The surrounding loop then overwrites that
choice through the normal edge lookup from the condition node; the model
reproduces this faithfully.) -/
def executeCondition (ctx : Context) (node : Node) : Bool × Context × List Effect :=
  let variableValue := getVar ctx.vars (node.data.variableRef.getD ("undefined"))
  let condition :=
    match node.data.operator with
    | some op =>
        if op == "equals" then
          match node.data.value with
          | some s => jsLooseEqStr variableValue s
          | none => variableValue == JsVal.vNull || variableValue == JsVal.vUndefined
        else if op == "contains" then
          listContainsSub ((node.data.value.getD ("undefined")).data)
            ((if variableValue.truthy then variableValue.toStr else "").data)
        else if op == "greater_than" then
          jsNumLtB (match node.data.value with
                    | some s => strToNum s
                    | none => JsNum.nan) variableValue.toNumber
        else if op == "less_than" then
          jsNumLtB variableValue.toNumber
            (match node.data.value with
             | some s => strToNum s
             | none => JsNum.nan)
        else if op == "is_empty" then
          !variableValue.truthy
        else false
    | none => false
  let nextNodeId := if condition then node.data.branches.btrue else node.data.branches.bfalse
  (true, { ctx with current_node_id := nextNodeId }, [])

/-- Model of FlowEngine.executeDelay: a duration of at most 30000 ms
sleeps in process and continues; a longer one stores resume_at =
now + duration in the variables, persists, and stops. -/
def executeDelay (env : Env) (ctx : Context) (node : Node) : Bool × Context × List Effect :=
  let duration := node.data.duration
  if duration ≤ 30000 then
    (true, ctx, [Effect.sleepEff duration])
  else
    let ctx' := { ctx with
      vars := setVar ctx.vars ("resume_at") (JsVal.vStr (isoString (env.now + duration))) }
    (false, ctx', [Effect.saveContext ctx'])

/-- Model of FlowEngine.executeSetVariable: assign the interpolated value
to the variable, continue.  (On a node missing its value the source would
throw inside replace; flows always set it, and the model reads it with an
empty-string default.) -/
def executeSetVariable (ctx : Context) (node : Node) : Bool × Context × List Effect :=
  let v := interpolateVariables (node.data.value.getD ("")) ctx.vars
  (true,
    { ctx with vars := setVar ctx.vars (node.data.variable_name.getD ("undefined")) (JsVal.vStr v) },
    [])

/-- Model of FlowEngine.executeHttpRequest: on success store the response
under save_response_to when declared; on failure store an error object
under that variable (under the literal key undefined when it is not
declared, as the source's unguarded assignment does); always continue. -/
def executeHttpRequest (env : Env) (ctx : Context) (node : Node) : Bool × Context × List Effect :=
  match env.http (node.data.url.getD ("undefined")) with
  | Except.ok d =>
      match node.data.save_response_to with
      | some k => (true, { ctx with vars := setVar ctx.vars k (JsVal.vObj d) }, [])
      | none => (true, ctx, [])
  | Except.error msg =>
      let errVal := JsVal.vObj [(("error"), msg)]
      let vars' := setVar ctx.vars (node.data.save_response_to.getD ("undefined")) errVal
      (true, { ctx with vars := vars' }, [])

/-- Model of FlowEngine.executeAssignToHuman: optionally send and log the
raw parting message, flip the conversation to human handling, stop. -/
def executeAssignToHuman (phone : String) (ctx : Context) (node : Node) :
    Bool × Context × List Effect :=
  let effs :=
    if node.data.message != "" then
      [Effect.sendText phone node.data.message,
       Effect.logMessage ("outgoing") node.data.message ("text")]
    else []
  (false, ctx, effs ++ [Effect.setConversationHuman])

/-- Model of FlowEngine.executeNode: dispatch on the node type string; an
end node stops, an unknown type logs a warning and continues. -/
def executeNode (env : Env) (phone : String) (ctx : Context) (node : Node) :
    Bool × Context × List Effect :=
  match node.ntype with
  | "send_message" => executeSendMessage phone ctx node
  | "ask_question" => executeAskQuestion phone ctx node
  | "condition" => executeCondition ctx node
  | "delay" => executeDelay env ctx node
  | "set_variable" => executeSetVariable ctx node
  | "http_request" => executeHttpRequest env ctx node
  | "assign_to_human" => executeAssignToHuman phone ctx node
  | "end" => (false, ctx, [])
  | _ => (true, ctx, [])

/-- Model of FlowEngine.findNodeById (the source passes ids that may be
null or undefined, which match no node). -/
def findNodeById (bot : FlowGraph) (nodeId : Option String) : Option Node :=
  match nodeId with
  | some i => bot.nodes.find? (fun n => n.id == i)
  | none => none

/-- Model of FlowEngine.findNextNode: the first edge out of the current
node, resolved to its target node. -/
def findNextNode (bot : FlowGraph) (currentNode : Node) : Option Node :=
  match bot.edges.find? (fun e => e.source == currentNode.id) with
  | some e => findNodeById bot (some e.target)
  | none => none

/-- Model of FlowEngine.validateResponse on the inbound text (None stands
for a non-text message, whose undefined text fails the typeof check of
the text validator and coerces to the string undefined inside the regex
and Number checks, all of which reject it). -/
def validateResponse (response : Option String) (validation : Option Validation) : Bool :=
  match validation with
  | none => true
  | some v =>
      if v.vtype == "text" then
        match response with
        | some s => decide (s.length > 0)
        | none => false
      else if v.vtype == "number" then jsNumberParses (response.getD ("undefined"))
      else if v.vtype == "email" then emailValid (response.getD ("undefined"))
      else if v.vtype == "phone" then phoneValid (response.getD ("undefined"))
      else true

/-- Model of FlowEngine.handleUserResponse: only an ask_question node
referenced by waiting_for is handled; an invalid reply re-sends the raw
question prefixed with an apology and leaves the context untouched; a
valid reply is stored under the node's variable name and waiting_for is
cleared. -/
def handleUserResponse (bot : FlowGraph) (phone : String) (ctx : Context)
    (messageText : Option String) : Context × List Effect :=
  match findNodeById bot ctx.waiting_for with
  | some waitingNode =>
      if waitingNode.ntype == "ask_question" then
        if !validateResponse messageText waitingNode.data.validation then
          (ctx, [Effect.sendText phone (("Invalid response. ") ++ waitingNode.data.question)])
        else
          let stored := match messageText with
            | some s => JsVal.vStr s
            | none => JsVal.vUndefined
          let vars' := setVar ctx.vars (waitingNode.data.variable_name.getD ("undefined")) stored
          ({ ctx with vars := vars', waiting_for := none }, [])
      else (ctx, [])
  | none => (ctx, [])

/-- Model of FlowEngine.findTrigger: scan trigger nodes in declaration
order; any_message always matches, keyword matches when some keyword is a
case-insensitive substring of the inbound text, new_conversation matches
an empty flow history. -/
def findTrigger (bot : FlowGraph) (ctx : Context) (message : Option Inbound) : Option Node :=
  (bot.nodes.filter (fun n => n.ntype == "trigger")).find? (fun trigger =>
    match trigger.data.trigger_type with
    | some tt =>
        if tt == "any_message" then true
        else if tt == "keyword" then
          match trigger.data.keywords with
          | some kws =>
              let messageText := ((message.bind Inbound.text).getD ("")).toLower
              kws.any (fun kw => listContainsSub kw.toLower.data messageText.data)
          | none => false
        else if tt == "new_conversation" then ctx.flow_history.length == 0
        else false
    | none => false)

/-- The iteration cap of FlowEngine.executeNodes. -/
def maxIterations : Nat := 100

/-- The while-loop of FlowEngine.executeNodes, with fuel equal to the
iterations the cap still allows.  Returns the mutated context, the effect
trace and the number of node executions performed. -/
def executeNodesLoop (bot : FlowGraph) (env : Env) (phone : String) :
    Option Node → Context → Nat → Context × List Effect × Nat
  | _, ctx, 0 => (ctx, [], 0)
  | none, ctx, _ + 1 => (ctx, [], 0)
  | some node, ctx, fuel + 1 =>
      match executeNode env phone ctx node with
      | (false, ctx1, effs) => (ctx1, effs, 1)
      | (true, ctx1, effs) =>
          match findNextNode bot node with
          | none => (ctx1, effs, 1)
          | some nxt =>
              match executeNodesLoop bot env phone (some nxt) { ctx1 with current_node_id := some nxt.id, flow_history := ctx1.flow_history ++ [nxt.id] } fuel with
              | (ctx3, effs2, n2) => (ctx3, effs ++ effs2, n2 + 1)

/-- Model of FlowEngine.executeNodes: run the loop from the context's
current node under the iteration cap, then persist the context. -/
def executeNodes (bot : FlowGraph) (env : Env) (phone : String) (ctx : Context) :
    Context × List Effect × Nat :=
  let r := executeNodesLoop bot env phone (findNodeById bot ctx.current_node_id) ctx maxIterations
  (r.1, r.2.1 ++ [Effect.saveContext r.1], r.2.2)

/-- Result of one FlowEngine.execute invocation. -/
structure ExecResult where
  ctx : Context
  effects : List Effect
  executed : Nat
deriving DecidableEq

/-- Model of FlowEngine.execute: resolve a trigger when the context has
no current node (no match is a logged no-op); handle the inbound reply
when waiting_for is set; then run the node loop. -/
def FlowEngine.execute (bot : FlowGraph) (env : Env) (phone : String) (ctx : Context)
    (incomingMessage : Option Inbound) : ExecResult :=
  let entry : Option Context :=
    match ctx.current_node_id with
    | some _ => some ctx
    | none =>
        match findTrigger bot ctx incomingMessage with
        | none => none
        | some triggerNode =>
            some { ctx with
              current_node_id := some triggerNode.id,
              flow_history := [triggerNode.id] }
  match entry with
  | none => ⟨ctx, [], 0⟩
  | some ctx1 =>
      let handled :=
        match ctx1.waiting_for, incomingMessage with
        | some _, some m => handleUserResponse bot phone ctx1 m.text
        | _, _ => (ctx1, [])
      let r := executeNodes bot env phone handled.1
      ⟨r.1, handled.2 ++ r.2.1, r.2.2⟩

/-
Dead-letter retry manager (dlq.service.js) with the SQL function
calculate_next_retry (exponential backoff over a fixed table).
-/

/-- The backoff table of calculate_next_retry, in milliseconds: 1 minute,
5 minutes, 30 minutes, 2 hours, 12 hours, then 24 hours for every higher
retry count. -/
def backoffMs : Nat → Nat
  | 0 => 60000
  | 1 => 300000
  | 2 => 1800000
  | 3 => 7200000
  | 4 => 43200000
  | _ + 5 => 86400000

/-- Model of the SQL calculate_next_retry: NOW() plus the backoff table
entry for the given retry count. -/
def calculate_next_retry (now retry_count : Nat) : Nat :=
  now + backoffMs retry_count

/-- A dead_letter_queue row, restricted to the columns the retry logic
reads and writes. -/
structure DeadLetterEntry where
  retry_count : Nat
  max_retries : Nat
  next_retry_at : Nat
  status : String
  last_retry_at : Option Nat := none
  resolved_at : Option Nat := none
deriving DecidableEq

/-- Model of DLQService.addToDLQ: a fresh entry with retry_count 0, the
given max_retries (the source defaults it to 3), next_retry_at from the
backoff table at index 0, and status retrying. -/
def addToDLQ (now : Nat) (maxRetries : Nat) : DeadLetterEntry :=
  { retry_count := 0, max_retries := maxRetries,
    next_retry_at := calculate_next_retry now 0, status := ("retrying") }

/-- The fetch predicate of DLQService.processRetries: status retrying,
next_retry_at due, retry_count below max_retries. -/
def dlqEligible (now : Nat) (e : DeadLetterEntry) : Bool :=
  e.status == "retrying" && decide (e.next_retry_at ≤ now) && decide (e.retry_count < e.max_retries)

/-- The success branch of processRetries: mark the entry resolved. -/
def retrySuccess (now : Nat) (e : DeadLetterEntry) : DeadLetterEntry :=
  { e with status := ("resolved"), resolved_at := some now }

/-- The failure branch of processRetries: bump retry_count; at or beyond
max_retries the entry becomes terminally failed, otherwise the next retry
is scheduled from the backoff table at the new count. -/
def retryFailure (now : Nat) (e : DeadLetterEntry) : DeadLetterEntry :=
  if e.retry_count + 1 ≥ e.max_retries then
    { e with status := ("failed"), retry_count := e.retry_count + 1 }
  else
    { e with retry_count := e.retry_count + 1,
             last_retry_at := some now,
             next_retry_at := calculate_next_retry now (e.retry_count + 1) }

/-- Model of DLQService.manualRetry on the entry: back to retrying with
retry_count reset and an immediate next_retry_at. -/
def manualRetry (now : Nat) (e : DeadLetterEntry) : DeadLetterEntry :=
  { e with status := ("retrying"), retry_count := 0, next_retry_at := now }

/-- Model of DLQService.archiveEntry. -/
def archiveEntry (e : DeadLetterEntry) : DeadLetterEntry :=
  { e with status := ("archived") }

/-- One state transition of a dead-letter entry: a scheduler retry tick
(with the handler outcome), a manual retry, or an archive. -/
inductive DLQOp where
  | processRetry (now : Nat) (handlerSucceeds : Bool)
  | manual (now : Nat)
  | archive
deriving DecidableEq

/-- Apply one operation to an entry.  processRetries only touches entries
its fetch predicate selects; ineligible entries are left unchanged. -/
def applyDLQOp : DLQOp → DeadLetterEntry → DeadLetterEntry
  | DLQOp.processRetry now ok, e =>
      if dlqEligible now e then
        (if ok then retrySuccess now e else retryFailure now e)
      else e
  | DLQOp.manual now, e => manualRetry now e
  | DLQOp.archive, e => archiveEntry e

/-
Helper lemmas shared by the claim theorems.
-/

/-- Reading a variable right after setVar stored it returns the stored
value. -/
theorem getVar_setVar (vars : List (String × JsVal)) (k : String) (v : JsVal) :
    getVar (setVar vars k v) k = v := by
  induction vars with
  | nil => simp [setVar, getVar, List.lookup]
  | cons kv t ih =>
      by_cases hkk : kv.1 = k
      · have hb : (kv.1 == k) = true := by simp [hkk]
        simp [setVar, hb, getVar, List.lookup]
      · have hb : (kv.1 == k) = false := by simp [hkk]
        have hne : ¬ k = kv.1 := fun hc => hkk hc.symm
        have hb2 : (k == kv.1) = false := by simp [hne]
        simpa [setVar, hb, getVar, List.lookup, hb2] using ih

/-
Claim theorems.
-/

/-- The template and variables map of the specification's interpolation
example. -/
def c7Template : String := "Hello \x7b\x7bname\x7d\x7d, you owe \x7b\x7bamt\x7d\x7d"

/-- The variables map of the interpolation example: only name is bound. -/
def c7Vars : List (String × JsVal) := [(("name"), JsVal.vStr ("Sam"))]

/-- C7, refuted: interpolateVariables on the example template with only
name bound does not return the claimed output with the amt token erased;
the missing variable's token is not replaced by the empty string. -/
theorem c7_counterexample :
    interpolateVariables c7Template c7Vars ≠ ("Hello Sam, you owe ") := by decide

/-- C7, amended: interpolateVariables on the example returns the template
with name substituted and the token of the missing variable amt left
verbatim in the output; only keys present in the variables map are
replaced. -/
theorem c7_missing_variable_left_verbatim :
    interpolateVariables c7Template c7Vars = ("Hello Sam, you owe \x7b\x7bamt\x7d\x7d") := by decide

/-- C10: for each key present in the variables map the interpolation
performs one global replacement pass of that key's token, substituting
the empty string whenever the bound value is falsy (shown structurally
for every falsy value, and exercised below on the concrete falsy values
null, undefined, false, 0 and the empty string, and on a template with
three occurrences of one token, all of which are replaced). -/
theorem c10_present_keys_global_replacement_falsy_empty :
    (∀ (template : String) (k : String) (v : JsVal) (rest : List (String × JsVal)),
       v.truthy = false →
       interpolateVariables template ((k, v) :: rest) =
         interpolateVariables (replaceAllStr template (bracedKey k) ("")) rest) ∧
    interpolateVariables ("\x7b\x7bx\x7d\x7d a \x7b\x7bx\x7d\x7d b \x7b\x7bx\x7d\x7d")
      [(("x"), JsVal.vStr ("y"))] = ("y a y b y") ∧
    interpolateVariables ("a\x7b\x7bk\x7d\x7db") [(("k"), JsVal.vNull)] = ("ab") ∧
    interpolateVariables ("a\x7b\x7bk\x7d\x7db") [(("k"), JsVal.vUndefined)] = ("ab") ∧
    interpolateVariables ("a\x7b\x7bk\x7d\x7db") [(("k"), JsVal.vBool false)] = ("ab") ∧
    interpolateVariables ("a\x7b\x7bk\x7d\x7db") [(("k"), JsVal.vNum 0)] = ("ab") ∧
    interpolateVariables ("a\x7b\x7bk\x7d\x7db") [(("k"), JsVal.vStr (""))] = ("ab") := by
  refine ⟨?_, by decide, by decide, by decide, by decide, by decide, by decide⟩
  intro template k v rest h
  simp [interpolateVariables, substVal, h]

/-- Witness for C10: the general falsy clause applied at a concrete
template, key and value. -/
theorem c10_witness :
    interpolateVariables ("x\x7b\x7bk\x7d\x7dy") [(("k"), JsVal.vNull)] =
      interpolateVariables (replaceAllStr ("x\x7b\x7bk\x7d\x7dy") (bracedKey ("k")) ("")) [] :=
  c10_present_keys_global_replacement_falsy_empty.1 ("x\x7b\x7bk\x7d\x7dy") ("k")
    JsVal.vNull [] (by decide)

/-- C5: a delay node execution with duration at most 30000 ms sleeps in
process for that duration and continues, leaving the context untouched
(no resume marker, no persistence); a duration strictly above 30000 ms
stops the run, stores resume_at equal to the clock at node execution plus
the duration, and persists the context. -/
theorem c5_delay_threshold (env : Env) (ctx : Context) (node : Node) :
    (node.data.duration ≤ 30000 →
       executeDelay env ctx node = (true, ctx, [Effect.sleepEff node.data.duration])) ∧
    (node.data.duration > 30000 →
       (executeDelay env ctx node).1 = false ∧
       getVar (executeDelay env ctx node).2.1.vars ("resume_at") =
         JsVal.vStr (isoString (env.now + node.data.duration)) ∧
       (executeDelay env ctx node).2.2 =
         [Effect.saveContext (executeDelay env ctx node).2.1]) := by
  constructor
  · intro h
    simp [executeDelay, h]
  · intro h
    have h2 : ¬ node.data.duration ≤ 30000 := by omega
    refine ⟨by simp [executeDelay, h2], ?_, by simp [executeDelay, h2]⟩
    simp [executeDelay, h2, getVar_setVar]

/-- Environment used by the delay witnesses. -/
def envW : Env := { now := 5000, http := fun _ => Except.error ("down") }

/-- Context used by the delay witnesses. -/
def ctxW : Context :=
  { current_node_id := some ("d"), waiting_for := none, vars := [], flow_history := [("d")] }

/-- A delay node at exactly the threshold. -/
def delayNodeShort : Node := { id := ("d"), ntype := ("delay"), data := { duration := 30000 } }

/-- A delay node just above the threshold. -/
def delayNodeLong : Node := { id := ("d"), ntype := ("delay"), data := { duration := 30001 } }

/-- Witness for C5: both branches exercised at the boundary, 30000 ms and
30001 ms. -/
theorem c5_witness :
    (executeDelay envW ctxW delayNodeShort =
       (true, ctxW, [Effect.sleepEff delayNodeShort.data.duration])) ∧
    ((executeDelay envW ctxW delayNodeLong).1 = false ∧
     getVar (executeDelay envW ctxW delayNodeLong).2.1.vars ("resume_at") =
       JsVal.vStr (isoString (envW.now + delayNodeLong.data.duration)) ∧
     (executeDelay envW ctxW delayNodeLong).2.2 =
       [Effect.saveContext (executeDelay envW ctxW delayNodeLong).2.1]) :=
  ⟨(c5_delay_threshold envW ctxW delayNodeShort).1 (by decide),
   (c5_delay_threshold envW ctxW delayNodeLong).2 (by decide)⟩

/-- C3: across the dead-letter operations, the backoff table is
non-decreasing and clamps at its last entry; a fresh entry starts at
retry_count 0, below its max_retries; every operation preserves
retry_count at most max_retries; and a failed retry on an entry the
scheduler fetched (due and still below max_retries) bumps retry_count by
exactly one and never moves next_retry_at backwards. -/
theorem c3_dlq_retry_invariants :
    (∀ k : Nat, backoffMs k ≤ backoffMs (k + 1)) ∧
    (∀ now maxRetries : Nat, (addToDLQ now maxRetries).retry_count = 0 ∧
       (addToDLQ now maxRetries).retry_count ≤ (addToDLQ now maxRetries).max_retries) ∧
    (∀ (op : DLQOp) (e : DeadLetterEntry), e.retry_count ≤ e.max_retries →
       (applyDLQOp op e).retry_count ≤ (applyDLQOp op e).max_retries) ∧
    (∀ (now : Nat) (e : DeadLetterEntry), dlqEligible now e = true →
       (retryFailure now e).retry_count = e.retry_count + 1 ∧
       e.next_retry_at ≤ (retryFailure now e).next_retry_at) := by
  have hrc : ∀ (now : Nat) (e : DeadLetterEntry),
      (retryFailure now e).retry_count = e.retry_count + 1 := by
    intro now e
    unfold retryFailure
    split
    · rfl
    · rfl
  have hmax : ∀ (now : Nat) (e : DeadLetterEntry),
      (retryFailure now e).max_retries = e.max_retries := by
    intro now e
    unfold retryFailure
    split
    · rfl
    · rfl
  refine ⟨?_, ?_, ?_, ?_⟩
  · intro k
    rcases k with _ | _ | _ | _ | _ | n <;> simp [backoffMs]
  · intro now maxRetries
    exact ⟨rfl, Nat.zero_le _⟩
  · intro op e h
    cases op with
    | processRetry now ok =>
        by_cases helig : dlqEligible now e = true
        · have hlt : e.retry_count < e.max_retries := by
            have h2 := helig
            simp only [dlqEligible, Bool.and_eq_true, decide_eq_true_eq] at h2
            exact h2.2
          cases ok with
          | true => simpa [applyDLQOp, helig, retrySuccess] using h
          | false =>
              have h2 : (retryFailure now e).retry_count ≤ (retryFailure now e).max_retries := by
                rw [hrc, hmax]
                omega
              simpa [applyDLQOp, helig] using h2
        · simpa [applyDLQOp, helig] using h
    | manual now => exact Nat.zero_le _
    | archive => exact h
  · intro now e helig
    have hle : e.next_retry_at ≤ now := by
      simp only [dlqEligible, Bool.and_eq_true, decide_eq_true_eq] at helig
      exact helig.1.2
    refine ⟨hrc now e, ?_⟩
    unfold retryFailure
    split
    · exact Nat.le_refl _
    · exact Nat.le_trans hle (Nat.le_add_right now (backoffMs (e.retry_count + 1)))

/-- A concrete entry for the C3 witness: freshly enqueued at time 0 with
the default three retries. -/
def dlqEntryW : DeadLetterEntry := addToDLQ 0 3

/-- Witness for C3: every clause instantiated, the guarded clauses at a
due, still-retryable entry. -/
theorem c3_witness :
    backoffMs 2 ≤ backoffMs 3 ∧
    ((addToDLQ 0 3).retry_count = 0 ∧
      (addToDLQ 0 3).retry_count ≤ (addToDLQ 0 3).max_retries) ∧
    ((applyDLQOp (DLQOp.processRetry 70000 false) dlqEntryW).retry_count ≤
      (applyDLQOp (DLQOp.processRetry 70000 false) dlqEntryW).max_retries) ∧
    ((retryFailure 70000 dlqEntryW).retry_count = dlqEntryW.retry_count + 1 ∧
      dlqEntryW.next_retry_at ≤ (retryFailure 70000 dlqEntryW).next_retry_at) :=
  ⟨c3_dlq_retry_invariants.1 2,
   c3_dlq_retry_invariants.2.1 0 3,
   c3_dlq_retry_invariants.2.2.1 (DLQOp.processRetry 70000 false) dlqEntryW (by decide),
   c3_dlq_retry_invariants.2.2.2 70000 dlqEntryW (by decide)⟩

/-- Every contact returned by getTargetContacts is a database row that is
opted in and WhatsApp-verified, whatever the target type. -/
theorem getTargetContacts_opted_verified (db : List Contact) (campaign : Campaign)
    (c : Contact) (hc : c ∈ getTargetContacts db campaign) :
    c ∈ db ∧ c.opted_in = true ∧ c.whatsapp_verified = true := by
  unfold getTargetContacts at hc
  rw [List.mem_filter] at hc
  have h2 := hc.2
  simp only [Bool.and_eq_true] at h2
  exact ⟨hc.1, h2.1.1.1.2, h2.1.1.2⟩

/-- The body of startCampaign only creates messages for contacts the
target query returned. -/
theorem startCampaignBody_messages (now : Nat) (db : List Contact) (campaign : Campaign)
    (m : CampaignMessage)
    (hm : m ∈ (startCampaign.startCampaignBody now db campaign).messagesCreated) :
    ∃ c : Contact, c ∈ db ∧ m.contact_id = c.id ∧
      c.opted_in = true ∧ c.whatsapp_verified = true := by
  unfold startCampaign.startCampaignBody at hm
  split at hm
  · simp at hm
  · simp only [List.mem_map] at hm
    obtain ⟨contact, hcmem, heq⟩ := hm
    obtain ⟨hdb, hopt, hver⟩ := getTargetContacts_opted_verified db campaign contact hcmem
    subst heq
    exact ⟨contact, hdb, rfl, hopt, hver⟩

/-- C1: every CampaignMessage created by startCampaign, for every target
type, belongs to a database contact with opted_in = true and
whatsapp_verified = true; in particular ids in a specific target list
that fail these flags are filtered out and get no message. -/
theorem c1_messages_only_opted_in_verified (now : Nat) (db : List Contact)
    (campaign : Campaign) (m : CampaignMessage)
    (hm : m ∈ (startCampaign now db campaign).messagesCreated) :
    ∃ c : Contact, c ∈ db ∧ m.contact_id = c.id ∧
      c.opted_in = true ∧ c.whatsapp_verified = true := by
  unfold startCampaign at hm
  rcases hsc : campaign.scheduled_at with _ | t
  · rw [hsc] at hm
    exact startCampaignBody_messages now db campaign m hm
  · rw [hsc] at hm
    by_cases hfut : t > now
    · simp [hfut] at hm
    · have hm2 : m ∈ (startCampaign.startCampaignBody now db campaign).messagesCreated := by
        simpa [hfut] using hm
      exact startCampaignBody_messages now db campaign m hm2

/-- An eligible contact used by the broadcast witnesses. -/
def contactW : Contact :=
  { id := 7, workspace_id := 1, phone := ("+33612345678"), name := some ("Ana"),
    email := none, opted_in := true, whatsapp_verified := true, tags := [], custom_fields := [] }

/-- A one-contact database. -/
def dbW : List Contact := [contactW]

/-- An all-targets campaign over that workspace. -/
def campaignAllW : Campaign :=
  { id := 3, workspace_id := 1, message_content := ("Hi \x7b\x7bname\x7d\x7d"),
    target_type := ("all") }

/-- The message startCampaign creates for the witness contact. -/
def msgW : CampaignMessage :=
  { campaign_id := 3, contact_id := 7, contact_phone := ("+33612345678"),
    message_content := ("Hi Ana"), status := ("pending") }

/-- Witness for C1: the one message of a concrete run traces back to an
opted-in, verified contact. -/
theorem c1_witness :
    ∃ c : Contact, c ∈ dbW ∧ msgW.contact_id = c.id ∧
      c.opted_in = true ∧ c.whatsapp_verified = true :=
  c1_messages_only_opted_in_verified 5 dbW campaignAllW msgW (by decide)

/-- C9: when recipient resolution yields no contacts and the campaign is
not scheduled in the future, startCampaign writes status processing (with
started_at) before resolving recipients and then ends at status failed
with completed_at set, creating no CampaignMessage rows and never
starting the processing loop. -/
theorem c9_zero_recipients_fails (now : Nat) (db : List Contact) (campaign : Campaign)
    (hsched : ∀ t, campaign.scheduled_at = some t → t ≤ now)
    (hempty : getTargetContacts db campaign = []) :
    startCampaign now db campaign =
      ⟨[("processing"), ("failed")], some now, some now, none, [], false⟩ := by
  have hbody : startCampaign.startCampaignBody now db campaign =
      ⟨[("processing"), ("failed")], some now, some now, none, [], false⟩ := by
    unfold startCampaign.startCampaignBody
    rw [hempty]
    rfl
  unfold startCampaign
  rcases hsc : campaign.scheduled_at with _ | t
  · exact hbody
  · have hng : ¬ t > now := by
      have := hsched t hsc
      omega
    simpa [hng] using hbody

/-- An all-targets campaign in a workspace with no contacts. -/
def campaignEmptyW : Campaign :=
  { id := 4, workspace_id := 2, message_content := ("x"), target_type := ("all") }

/-- Witness for C9: a concrete campaign with an empty contact database. -/
theorem c9_witness :
    startCampaign 5 [] campaignEmptyW =
      ⟨[("processing"), ("failed")], some 5, some 5, none, [], false⟩ :=
  c9_zero_recipients_fails 5 [] campaignEmptyW (fun _ h => Option.noConfusion h) (by decide)

/-- The node-execution loop performs at most as many node executions as
it has fuel. -/
theorem executeNodesLoop_count_le (bot : FlowGraph) (env : Env) (phone : String) :
    ∀ (fuel : Nat) (node : Option Node) (ctx : Context),
      (executeNodesLoop bot env phone node ctx fuel).2.2 ≤ fuel := by
  intro fuel
  induction fuel with
  | zero =>
      intro node ctx
      cases node with
      | none => simp [executeNodesLoop]
      | some n => simp [executeNodesLoop]
  | succ k ih =>
      intro node ctx
      cases node with
      | none => simp [executeNodesLoop]
      | some n =>
          rcases hr : executeNode env phone ctx n with ⟨cont, ctx1, effs⟩
          cases cont with
          | false =>
              simp only [executeNodesLoop, hr]
              omega
          | true =>
              rcases hnx : findNextNode bot n with _ | nxt
              · simp only [executeNodesLoop, hr, hnx]
                omega
              · have ihx := ih (some nxt) { ctx1 with current_node_id := some nxt.id, flow_history := ctx1.flow_history ++ [nxt.id] }
                simp only [executeNodesLoop, hr, hnx]
                rcases hrec : executeNodesLoop bot env phone (some nxt) { ctx1 with current_node_id := some nxt.id, flow_history := ctx1.flow_history ++ [nxt.id] } k with ⟨ctx3, effs2, n2⟩
                rw [hrec] at ihx
                exact Nat.succ_le_succ ihx

/-- C2: one run of the Flow Interpreter executes at most 100 nodes
(maxIterations), on every flow graph, cyclic ones included, and for every
starting context and inbound event; the loop's recursion is structurally
bounded by the same variant the source decrements, so a run always
terminates, and reaching the cap ends the run. -/
theorem c2_step_cap (bot : FlowGraph) (env : Env) (phone : String) (ctx : Context)
    (incoming : Option Inbound) :
    (FlowEngine.execute bot env phone ctx incoming).executed ≤ 100 := by
  have hloop : ∀ c : Context, (executeNodes bot env phone c).2.2 ≤ 100 := by
    intro c
    exact executeNodesLoop_count_le bot env phone 100 (findNodeById bot c.current_node_id) c
  unfold FlowEngine.execute
  split
  · exact hloop _
  · split
    · exact Nat.zero_le 100
    · exact hloop _

/-- An ask_question node with a text validator, storing to color. -/
def askColorNode : Node :=
  { id := ("q"), ntype := ("ask_question"),
    data := { question := ("What is your favorite color?"),
              variable_name := some ("color"),
              validation := some { vtype := ("text") } } }

/-- The send_message node wired after the question. -/
def thanksNode : Node :=
  { id := ("m"), ntype := ("send_message"), data := { message := ("Thanks!") } }

/-- A two-node flow: the question, then the thank-you message. -/
def askFlow : FlowGraph :=
  { nodes := [askColorNode, thanksNode], edges := [{ source := ("q"), target := ("m") }] }

/-- Environment for the ask flow runs. -/
def askFlowEnv : Env := { now := 1000, http := fun _ => Except.error ("no network") }

/-- A context suspended on the question node awaiting the reply. -/
def askFlowCtx : Context :=
  { current_node_id := some ("q"), waiting_for := some ("q"), vars := [], flow_history := [("q")] }

/-- C6, code bug at the failing input: re-invoking the interpreter with
the valid reply blue while suspended on the ask_question node does store
the reply under color and clear waiting_for, as claimed, but the node
loop then re-executes the same question node (current_node_id was never
advanced), so the run re-sends the prompt, sets waiting_for back to the
question node and suspends there again; execution never continues past
the question node to the wired send_message node.  The invalid-reply
clause of the claim does hold: an empty reply triggers the apology
re-prompt and the context stays suspended on the same node. -/
theorem c6_valid_reply_resuspends_on_question :
    ((FlowEngine.execute askFlow askFlowEnv ("+100") askFlowCtx
        (some { text := some ("blue") })).ctx.waiting_for = some ("q") ∧
     (FlowEngine.execute askFlow askFlowEnv ("+100") askFlowCtx
        (some { text := some ("blue") })).ctx.current_node_id = some ("q") ∧
     getVar (FlowEngine.execute askFlow askFlowEnv ("+100") askFlowCtx
        (some { text := some ("blue") })).ctx.vars ("color") = JsVal.vStr ("blue") ∧
     Effect.sendText ("+100") ("What is your favorite color?") ∈
       (FlowEngine.execute askFlow askFlowEnv ("+100") askFlowCtx
         (some { text := some ("blue") })).effects ∧
     (FlowEngine.execute askFlow askFlowEnv ("+100") askFlowCtx
        (some { text := some ("blue") })).ctx.current_node_id ≠ some ("m")) ∧
    ((FlowEngine.execute askFlow askFlowEnv ("+100") askFlowCtx
        (some { text := some ("") })).ctx.waiting_for = some ("q") ∧
     Effect.sendText ("+100") ("Invalid response. What is your favorite color?") ∈
       (FlowEngine.execute askFlow askFlowEnv ("+100") askFlowCtx
         (some { text := some ("") })).effects) := by
  constructor
  · exact ⟨by decide, by decide, by decide, by decide, by decide⟩
  · exact ⟨by decide, by decide⟩

/-- Predicate: a trace event is either not a sleep, or a sleep of exactly
the given duration. -/
def sleepIsDelay (delayMs : Rat) (e : PCEvent) : Bool :=
  match e with
  | PCEvent.sleepEv ms => ms == delayMs
  | _ => true

/-- An empty trace has no sleeps. -/
theorem countSleeps_nil : countSleeps [] = 0 := rfl

/-- A send attempt adds no sleep. -/
theorem countSleeps_cons_attempt (i : Nat) (l : List PCEvent) :
    countSleeps (PCEvent.attempt i :: l) = countSleeps l := by
  simp [countSleeps]

/-- A sleep event adds one sleep. -/
theorem countSleeps_cons_sleep (q : Rat) (l : List PCEvent) :
    countSleeps (PCEvent.sleepEv q :: l) = countSleeps l + 1 := by
  simp [countSleeps]

/-- Sleep counting distributes over trace concatenation. -/
theorem countSleeps_append (a b : List PCEvent) :
    countSleeps (a ++ b) = countSleeps a + countSleeps b := by
  simp [countSleeps, List.filter_append]

/-- Within one batch the sleep events are exactly one per newly sent
message. -/
theorem processBatch_count (sendOk : Nat → Bool) (delayMs : Rat) (threshold : Nat) :
    ∀ (batch : List BMsg) (sent failed : Nat),
      countSleeps (processBatch sendOk delayMs threshold batch sent failed).events + sent =
        (processBatch sendOk delayMs threshold batch sent failed).sent := by
  intro batch
  induction batch with
  | nil =>
      intro sent failed
      simp [processBatch, countSleeps_nil]
  | cons m rest ih =>
      intro sent failed
      by_cases hok : sendOk m.id = true
      · by_cases hth : thresholdHit threshold (sent + 1) failed = true
        · simp [processBatch, hok, hth, countSleeps_cons_attempt, countSleeps_cons_sleep,
            countSleeps_nil]
          omega
        · have ihx := ih (sent + 1) failed
          simp [processBatch, hok, hth, countSleeps_cons_attempt, countSleeps_cons_sleep]
          omega
      · have hok2 : sendOk m.id = false := by
          rcases hval : sendOk m.id with _ | _
          · rfl
          · exact absurd hval hok
        by_cases hth : thresholdHit threshold sent (failed + 1) = true
        · simp [processBatch, hok2, hth, countSleeps_cons_attempt, countSleeps_nil]
        · have ihx := ih sent (failed + 1)
          simp [processBatch, hok2, hth, countSleeps_cons_attempt]
          omega

/-- Every sleep a batch emits lasts exactly the configured delay. -/
theorem processBatch_sleep_delay (sendOk : Nat → Bool) (delayMs : Rat) (threshold : Nat) :
    ∀ (batch : List BMsg) (sent failed : Nat),
      (processBatch sendOk delayMs threshold batch sent failed).events.all
        (sleepIsDelay delayMs) = true := by
  intro batch
  induction batch with
  | nil =>
      intro sent failed
      simp [processBatch]
  | cons m rest ih =>
      intro sent failed
      by_cases hok : sendOk m.id = true
      · by_cases hth : thresholdHit threshold (sent + 1) failed = true
        · simp [processBatch, hok, hth, sleepIsDelay]
        · simp [processBatch, hok, hth, sleepIsDelay, ih (sent + 1) failed]
      · have hok2 : sendOk m.id = false := by
          rcases hval : sendOk m.id with _ | _
          · rfl
          · exact absurd hval hok
        by_cases hth : thresholdHit threshold sent (failed + 1) = true
        · simp [processBatch, hok2, hth, sleepIsDelay]
        · simp [processBatch, hok2, hth, sleepIsDelay, ih sent (failed + 1)]

/-- A batch only aborts once strictly more than ten messages have been
processed in total. -/
theorem processBatch_abort_gt (sendOk : Nat → Bool) (delayMs : Rat) (threshold : Nat) :
    ∀ (batch : List BMsg) (sent failed : Nat),
      (processBatch sendOk delayMs threshold batch sent failed).aborted = true →
      (processBatch sendOk delayMs threshold batch sent failed).sent +
        (processBatch sendOk delayMs threshold batch sent failed).failed > 10 := by
  intro batch
  induction batch with
  | nil =>
      intro sent failed h
      simp [processBatch] at h
  | cons m rest ih =>
      intro sent failed h
      by_cases hok : sendOk m.id = true
      · by_cases hth : thresholdHit threshold (sent + 1) failed = true
        · have hgt : sent + 1 + failed > 10 := by
            have h2 := hth
            simp only [thresholdHit, Bool.and_eq_true, decide_eq_true_eq] at h2
            exact h2.2
          simp [processBatch, hok, hth]
          omega
        · have := ih (sent + 1) failed
          simp [processBatch, hok, hth] at h ⊢
          exact this h
      · have hok2 : sendOk m.id = false := by
          rcases hval : sendOk m.id with _ | _
          · rfl
          · exact absurd hval hok
        by_cases hth : thresholdHit threshold sent (failed + 1) = true
        · have hgt : sent + (failed + 1) > 10 := by
            have h2 := hth
            simp only [thresholdHit, Bool.and_eq_true, decide_eq_true_eq] at h2
            exact h2.2
          simp [processBatch, hok2, hth]
          omega
        · have := ih sent (failed + 1)
          simp [processBatch, hok2, hth] at h ⊢
          exact this h

/-- A threshold abort of the outer loop implies more than ten processed
messages in the final counters. -/
theorem processLoop_abort_gt (statusReads : Nat → String) (sendOk : Nat → Bool)
    (delayMs : Rat) (threshold : Nat) :
    ∀ (fuel i : Nat) (pending : List BMsg) (sent failed : Nat),
      (processLoop statusReads sendOk delayMs threshold fuel i pending sent failed).outcome =
        PCOutcome.thresholdAborted →
      (processLoop statusReads sendOk delayMs threshold fuel i pending sent failed).sent_count +
        (processLoop statusReads sendOk delayMs threshold fuel i pending sent failed).failed_count
        > 10 := by
  intro fuel
  induction fuel with
  | zero =>
      intro i pending sent failed h
      simp [processLoop] at h
  | succ k ih =>
      intro i pending sent failed h
      by_cases hp : (statusReads i == "paused") = true
      · simp [processLoop, hp] at h
      · by_cases hc : (statusReads i == "cancelled") = true
        · simp [processLoop, hp, hc] at h
        · by_cases hb : (pending.take 10).isEmpty = true
          · simp [processLoop, hp, hc, hb] at h
          · by_cases ha : (processBatch sendOk delayMs threshold (pending.take 10) sent
                failed).aborted = true
            · have hgt := processBatch_abort_gt sendOk delayMs threshold (pending.take 10)
                sent failed ha
              simp [processLoop, hp, hc, hb, ha]
              omega
            · have ihx := ih (i + 1) (pending.drop 10)
                (processBatch sendOk delayMs threshold (pending.take 10) sent failed).sent
                (processBatch sendOk delayMs threshold (pending.take 10) sent failed).failed
              simp [processLoop, hp, hc, hb, ha] at h ⊢
              exact ihx h

/-- Over a whole loop run, sleeps happen exactly once per sent message,
each of the configured delay; failed messages add none. -/
theorem processLoop_sleeps (statusReads : Nat → String) (sendOk : Nat → Bool)
    (delayMs : Rat) (threshold : Nat) :
    ∀ (fuel i : Nat) (pending : List BMsg) (sent failed : Nat),
      countSleeps
          (processLoop statusReads sendOk delayMs threshold fuel i pending sent failed).trace +
          sent =
        (processLoop statusReads sendOk delayMs threshold fuel i pending sent failed).sent_count ∧
      (processLoop statusReads sendOk delayMs threshold fuel i pending sent failed).trace.all
        (sleepIsDelay delayMs) = true := by
  intro fuel
  induction fuel with
  | zero =>
      intro i pending sent failed
      simp [processLoop, countSleeps_nil]
  | succ k ih =>
      intro i pending sent failed
      by_cases hp : (statusReads i == "paused") = true
      · simp [processLoop, hp, countSleeps_nil]
      · by_cases hc : (statusReads i == "cancelled") = true
        · simp [processLoop, hp, hc, countSleeps_nil]
        · by_cases hb : (pending.take 10).isEmpty = true
          · simp [processLoop, hp, hc, hb, countSleeps_nil]
          · by_cases ha : (processBatch sendOk delayMs threshold (pending.take 10) sent
                failed).aborted = true
            · have h1 := processBatch_count sendOk delayMs threshold (pending.take 10) sent failed
              have h2 := processBatch_sleep_delay sendOk delayMs threshold (pending.take 10)
                sent failed
              simp [processLoop, hp, hc, hb, ha, h2]
              omega
            · obtain ⟨ih1, ih2⟩ := ih (i + 1) (pending.drop 10)
                (processBatch sendOk delayMs threshold (pending.take 10) sent failed).sent
                (processBatch sendOk delayMs threshold (pending.take 10) sent failed).failed
              have h1 := processBatch_count sendOk delayMs threshold (pending.take 10) sent failed
              have h2 := processBatch_sleep_delay sendOk delayMs threshold (pending.take 10)
                sent failed
              simp [processLoop, hp, hc, hb, ha, countSleeps_append, List.all_append, h2, ih2]
              omega

/-- The campaign of the failure-threshold scenario (default threshold 30,
default rate limit). -/
def campaignC4 : Campaign :=
  { id := 1, workspace_id := 1, message_content := ("hi"), target_type := ("all") }

/-- Fifteen pending messages with ids 1 to 15. -/
def messagesC4 : List BMsg :=
  (List.range 15).map (fun i => { id := i + 1, contact_phone := ("p"), message_content := ("m") })

/-- Send outcomes of the scenario: ids 8 to 11 fail, the rest succeed, so
after the eleventh message 4 of 11 sends have failed. -/
def sendOkC4 : Nat → Bool := fun id => !(8 ≤ id && id ≤ 11)

/-- C4: with the default 30 percent threshold, a run that has processed
11 messages of which 4 failed (about 36 percent) aborts with the campaign
set to failed, having issued exactly 11 sends and leaving the remaining 4
messages untouched; and in general, on any inputs, the threshold abort
can only ever fire after strictly more than 10 processed messages. -/
theorem c4_failure_threshold_abort :
    ((processCampaign (fun _ => ("processing")) sendOkC4 campaignC4 messagesC4).outcome =
        PCOutcome.thresholdAborted ∧
     (processCampaign (fun _ => ("processing")) sendOkC4 campaignC4 messagesC4).finalStatus =
        ("failed") ∧
     countAttempts
        (processCampaign (fun _ => ("processing")) sendOkC4 campaignC4 messagesC4).trace = 11 ∧
     (processCampaign (fun _ => ("processing")) sendOkC4 campaignC4 messagesC4).sent_count = 7 ∧
     (processCampaign (fun _ => ("processing")) sendOkC4 campaignC4 messagesC4).failed_count = 4 ∧
     (processCampaign (fun _ => ("processing")) sendOkC4 campaignC4
        messagesC4).remainingPending.length = 4) ∧
    (∀ (statusReads : Nat → String) (sendOk : Nat → Bool) (campaign : Campaign)
        (pending : List BMsg),
       (processCampaign statusReads sendOk campaign pending).outcome =
         PCOutcome.thresholdAborted →
       (processCampaign statusReads sendOk campaign pending).sent_count +
         (processCampaign statusReads sendOk campaign pending).failed_count > 10) := by
  constructor
  · exact ⟨by decide, by decide, by decide, by decide, by decide, by decide⟩
  · intro statusReads sendOk campaign pending h
    exact processLoop_abort_gt statusReads sendOk
      (1000 / (effectiveRateLimit campaign : Rat)) failureThreshold
      (pending.length + 1) 0 pending 0 0 h

/-- Witness for C4: the general abort clause applied to the concrete
aborting run. -/
theorem c4_witness :
    (processCampaign (fun _ => ("processing")) sendOkC4 campaignC4 messagesC4).sent_count +
      (processCampaign (fun _ => ("processing")) sendOkC4 campaignC4 messagesC4).failed_count
      > 10 :=
  c4_failure_threshold_abort.2 (fun _ => ("processing")) sendOkC4 campaignC4 messagesC4
    (by decide)

/-- A campaign with rate limit 10 used by the C8 counterexample. -/
def campaignC8 : Campaign :=
  { id := 9, workspace_id := 1, message_content := ("m"), target_type := ("all"),
    rate_limit := some 10 }

/-- C8, refuted: a run that processes one message ending in status failed
performs no rate-limiting sleep at all, so the loop does not sleep after
every processed message; the sleep only follows successful sends. -/
theorem c8_counterexample :
    countAttempts (processCampaign (fun _ => ("processing")) (fun _ => false) campaignC8
        [{ id := 1, contact_phone := ("p"), message_content := ("m") }]).trace = 1 ∧
    (processCampaign (fun _ => ("processing")) (fun _ => false) campaignC8
        [{ id := 1, contact_phone := ("p"), message_content := ("m") }]).failed_count = 1 ∧
    countSleeps (processCampaign (fun _ => ("processing")) (fun _ => false) campaignC8
        [{ id := 1, contact_phone := ("p"), message_content := ("m") }]).trace = 0 := by
  exact ⟨by decide, by decide, by decide⟩

/-- C8, amended: in every processCampaign run the loop sleeps exactly
once per message that ended status sent, each sleep lasting 1000 ms
divided by the campaign's effective rate limit, and never sleeps after a
message that ended status failed. -/
theorem c8_sleep_only_after_sent (statusReads : Nat → String) (sendOk : Nat → Bool)
    (campaign : Campaign) (pending : List BMsg) :
    countSleeps (processCampaign statusReads sendOk campaign pending).trace =
      (processCampaign statusReads sendOk campaign pending).sent_count ∧
    (processCampaign statusReads sendOk campaign pending).trace.all
      (sleepIsDelay (1000 / (effectiveRateLimit campaign : Rat))) = true := by
  have h := processLoop_sleeps statusReads sendOk
    (1000 / (effectiveRateLimit campaign : Rat)) failureThreshold
    (pending.length + 1) 0 pending 0 0
  exact ⟨by simpa using h.1, h.2⟩
